import Mathlib

/-
Verification of the session-management core of an MCP server for a cloud
data warehouse (src/main.py).  Time is modelled as an integer timestamp
(seconds); each Python call to datetime.now() within a single operation is
modelled as one instant `now` passed to the operation.  The process-wide
dict `sessions` is modelled as an association list from session id to
Session.  Fallible resolution is modelled with Except; the external SQL
probe performed by login is modelled as an abstract outcome parameter.
-/

namespace DbxSession

/-- One hour of inactivity, in seconds (timedelta(hours=1) in main.py line 29). -/
def expirySeconds : Int := 3600

/-- Session entity, from class Session (main.py lines 20-29).  The uuid4
identifier is supplied by the caller of the constructor model. -/
structure Session where
  id : String
  host : String
  token : String
  http_path : String
  created_at : Int
  last_used : Int
  expiry : Int
deriving Repr, DecidableEq

/-- Session.__init__ (main.py lines 21-29): both timestamps read the clock at
construction, modelled as the single instant `now`; expiry is fixed at one hour. -/
def mkSession (freshId host token http_path : String) (now : Int) : Session :=
  { id := freshId, host := host, token := token, http_path := http_path,
    created_at := now, last_used := now, expiry := expirySeconds }

/-- Session.update_last_used (main.py lines 31-32). -/
def Session.update_last_used (s : Session) (now : Int) : Session :=
  { s with last_used := now }

/-- Session.is_expired (main.py lines 34-35): now - last_used > expiry. -/
def Session.is_expired (s : Session) (now : Int) : Bool :=
  s.expiry < now - s.last_used

/-- The process-wide `sessions` dict (main.py line 18), as an association list. -/
abbrev Store := List (String × Session)

/-- sessions.get(sid) (dict lookup). -/
def findSession (st : Store) (sid : String) : Option Session :=
  (st.find? (fun p => p.1 == sid)).map Prod.snd

/-- del sessions[sid] (dict deletion). -/
def eraseSession (st : Store) (sid : String) : Store :=
  st.filter (fun p => p.1 != sid)

/-- In-place mutation of the Session object stored under sid: the dict still
maps sid to the (now updated) object. -/
def setSession (st : Store) (sid : String) (s : Session) : Store :=
  st.map (fun p => if p.1 == sid then (sid, s) else p)

/-- sessions[sid] = s (dict assignment: overwrite if present, else add). -/
def insertSession (st : Store) (sid : String) (s : Session) : Store :=
  if (findSession st sid).isSome then setSession st sid s
  else st ++ [(sid, s)]

/-- get_session (main.py lines 37-50): expiry-checked lookup with lazy
eviction and touch-on-success.  Returns the result and the updated store. -/
def get_session (st : Store) (sid : String) (now : Int) : Option Session × Store :=
  match findSession st sid with
  | none => (none, st)
  | some s =>
    if s.is_expired now then
      (none, eraseSession st sid)
    else
      let s1 := s.update_last_used now
      (some s1, setSession st sid s1)

/-- Typed failures of credential resolution (main.py raises ValueError with
distinct messages for the two conditions; the specification names them
InvalidSessionError and MissingCredentialsError). -/
inductive ResolveError where
  | invalidSession
  | missingCredentials
deriving Repr, DecidableEq

/-- Process-wide default configuration: the three environment entries read by
os.getenv (main.py lines 65-67, 90-91); None models an unset variable. -/
structure Env where
  host : Option String
  token : Option String
  http_path : Option String
deriving Repr, DecidableEq

/-- Python truthiness of an optional string: None and the empty string are
falsy; this is the test `if session_id:` and the test inside all([...]). -/
def truthy : Option String → Bool
  | none => false
  | some s => s != ""

/-- Environment-fallback branch of get_databricks_connection (main.py lines
63-70): all three values must be truthy or the resolution fails. -/
def envConnFallback (env : Env) (st : Store) :
    Except ResolveError (String × String × String) × Store :=
  if truthy env.host && truthy env.token && truthy env.http_path then
    (Except.ok (env.host.getD "", env.token.getD "", env.http_path.getD ""), st)
  else
    (Except.error ResolveError.missingCredentials, st)

/-- Credential resolution of get_databricks_connection (main.py lines 53-70),
up to handing the triple to the external connect call.  `if session_id:`
sends None and the empty string to the environment fallback. -/
def get_databricks_connection (env : Env) (st : Store) (sessionId : Option String)
    (now : Int) : Except ResolveError (String × String × String) × Store :=
  match sessionId with
  | some sid =>
    if sid != "" then
      match get_session st sid now with
      | (none, st1) => (Except.error ResolveError.invalidSession, st1)
      | (some s, st1) =>
        if s.host != "" && s.token != "" && s.http_path != "" then
          (Except.ok (s.host, s.token, s.http_path), st1)
        else
          (Except.error ResolveError.missingCredentials, st1)
    else
      envConnFallback env st
  | none => envConnFallback env st

/-- Environment-fallback branch of databricks_api_request (main.py lines
88-94): only host and token are read and checked. -/
def envApiFallback (env : Env) (st : Store) :
    Except ResolveError (String × String) × Store :=
  if truthy env.host && truthy env.token then
    (Except.ok (env.host.getD "", env.token.getD ""), st)
  else
    (Except.error ResolveError.missingCredentials, st)

/-- Credential resolution of databricks_api_request (main.py lines 79-94), up
to issuing the HTTP request.  Note it never reads http_path, and its final
check all([host, token]) covers only those two values. -/
def databricks_api_request (env : Env) (st : Store) (sessionId : Option String)
    (now : Int) : Except ResolveError (String × String) × Store :=
  match sessionId with
  | some sid =>
    if sid != "" then
      match get_session st sid now with
      | (none, st1) => (Except.error ResolveError.invalidSession, st1)
      | (some s, st1) =>
        if s.host != "" && s.token != "" then
          (Except.ok (s.host, s.token), st1)
        else
          (Except.error ResolveError.missingCredentials, st1)
    else
      envApiFallback env st
  | none => envApiFallback env st

/-- Outcome of the connectivity probe login performs against the external SQL
service (connect + SELECT 1, main.py lines 126-133); the cause string is
str(e) of the underlying exception. -/
inductive ProbeResult where
  | ok
  | failure (cause : String)
deriving Repr, DecidableEq

/-- Result of login (main.py lines 114-149): the except branch returns the
"Authentication failed" message carrying str(e); the success branch returns
the banner carrying the new session id. -/
inductive LoginResult where
  | authError (cause : String)
  | success (sessionId : String)
deriving Repr, DecidableEq

/-- login (main.py lines 114-149).  The probe outcome and the uuid4 draw are
inputs of the model.  On probe failure nothing is written to the store; on
success a fresh Session is constructed and inserted under its id. -/
def login (st : Store) (host token http_path : String) (probe : ProbeResult)
    (freshId : String) (now : Int) : LoginResult × Store :=
  match probe with
  | ProbeResult.failure e => (LoginResult.authError e, st)
  | ProbeResult.ok =>
    let s := mkSession freshId host token http_path now
    (LoginResult.success s.id, insertSession st s.id s)

/-- logout (main.py lines 151-162): delete if present, report whether a
session existed. -/
def logout (st : Store) (sid : String) : Bool × Store :=
  if (findSession st sid).isSome then
    (true, eraseSession st sid)
  else
    (false, st)

/-- The data session_status renders on success (main.py lines 179-188):
identifier, host, creation time and the remaining duration
expiry - (now - last_used), computed after the touching lookup. -/
structure SessionInfo where
  id : String
  host : String
  created_at : Int
  remaining : Int
deriving Repr, DecidableEq

/-- session_status (main.py lines 164-188): touching lookup via get_session,
then remaining time from the touched session; not-found on absent/expired. -/
def session_status (st : Store) (sid : String) (now : Int) :
    Option SessionInfo × Store :=
  match get_session st sid now with
  | (none, st1) => (none, st1)
  | (some s, st1) =>
    (some { id := s.id, host := s.host, created_at := s.created_at,
            remaining := s.expiry - (now - s.last_used) }, st1)

/-! Store lemmas. -/

theorem findSession_cons (hd : String × Session) (tl : Store) (sid : String) :
    findSession (hd :: tl) sid =
      if hd.1 = sid then some hd.2 else findSession tl sid := by
  by_cases h : hd.1 = sid
  · simp [findSession, List.find?, h]
  · have hb : (hd.1 == sid) = false := by simpa using h
    simp [findSession, List.find?, hb, h]

theorem findSession_erase_self (st : Store) (sid : String) :
    findSession (eraseSession st sid) sid = none := by
  induction st with
  | nil => rfl
  | cons hd tl ih =>
    unfold eraseSession at ih ⊢
    rw [List.filter_cons]
    by_cases h : hd.1 = sid
    · simpa [h] using ih
    · rw [if_pos (by simpa using h), findSession_cons, if_neg h]
      exact ih

theorem findSession_set_self (st : Store) (sid : String) (s1 : Session)
    (hp : (findSession st sid).isSome = true) :
    findSession (setSession st sid s1) sid = some s1 := by
  induction st with
  | nil => simp [findSession] at hp
  | cons hd tl ih =>
    unfold setSession at ih ⊢
    rw [List.map_cons]
    rw [findSession_cons] at hp
    by_cases h : hd.1 = sid
    · rw [if_pos (by simpa using h), findSession_cons]
      simp
    · rw [if_neg (by simpa using h), findSession_cons, if_neg h]
      rw [if_neg h] at hp
      exact ih hp

theorem findSession_append_fresh (st : Store) (k : String) (v : Session)
    (h : findSession st k = none) :
    findSession (st ++ [(k, v)]) k = some v := by
  induction st with
  | nil => simp [findSession, List.find?]
  | cons hd tl ih =>
    rw [List.cons_append, findSession_cons]
    rw [findSession_cons] at h
    by_cases hk : hd.1 = k
    · simp [hk] at h
    · rw [if_neg hk] at h ⊢
      exact ih h

theorem findSession_insert_fresh (st : Store) (k : String) (v : Session)
    (h : findSession st k = none) :
    findSession (insertSession st k v) k = some v := by
  simp only [insertSession, h, Option.isSome_none, Bool.false_eq_true, if_false]
  exact findSession_append_fresh st k v h

/-! Unfolding lemmas for get_session. -/

theorem get_session_absent (st : Store) (sid : String) (now : Int)
    (h : findSession st sid = none) :
    get_session st sid now = (none, st) := by
  unfold get_session; rw [h]

theorem get_session_expired (st : Store) (sid : String) (now : Int) (s : Session)
    (h : findSession st sid = some s) (he : s.is_expired now = true) :
    get_session st sid now = (none, eraseSession st sid) := by
  unfold get_session; rw [h]; simp [he]

theorem get_session_live (st : Store) (sid : String) (now : Int) (s : Session)
    (h : findSession st sid = some s) (he : s.is_expired now = false) :
    get_session st sid now =
      (some (s.update_last_used now), setSession st sid (s.update_last_used now)) := by
  unfold get_session; rw [h]; simp [he]

/-! Unfolding lemmas for session_status. -/

theorem session_status_absent (st : Store) (sid : String) (now : Int) (st1 : Store)
    (h : get_session st sid now = (none, st1)) :
    session_status st sid now = (none, st1) := by
  unfold session_status; rw [h]

theorem session_status_found (st : Store) (sid : String) (now : Int) (s1 : Session)
    (st1 : Store) (h : get_session st sid now = (some s1, st1)) :
    session_status st sid now =
      (some { id := s1.id, host := s1.host, created_at := s1.created_at,
              remaining := s1.expiry - (now - s1.last_used) }, st1) := by
  unfold session_status; rw [h]

/-- Concrete store used by the witnesses: one session created at time 0. -/
def sampleSession : Session := mkSession "a" "h" "t" "p" 0

def sampleStore : Store := [("a", sampleSession)]

/-- C1: the store lookup get_session returns not-found on an absent id; on a
present but expired entry (now - last_used > expiry) it deletes the entry and
returns not-found, and a subsequent get on the same id also returns
not-found; on a present live entry it sets last_used to now, persists the
updated session in the store, and returns it. -/
theorem C1_get_session_lookup (st : Store) (sid : String) (now now2 : Int) :
    (findSession st sid = none → get_session st sid now = (none, st)) ∧
    (∀ s : Session, findSession st sid = some s → s.is_expired now = true →
      get_session st sid now = (none, eraseSession st sid) ∧
      get_session (eraseSession st sid) sid now2 = (none, eraseSession st sid)) ∧
    (∀ s : Session, findSession st sid = some s → s.is_expired now = false →
      get_session st sid now =
        (some (s.update_last_used now), setSession st sid (s.update_last_used now)) ∧
      (s.update_last_used now).last_used = now ∧
      findSession (setSession st sid (s.update_last_used now)) sid =
        some (s.update_last_used now)) := by
  refine ⟨fun h => get_session_absent st sid now h, ?_, ?_⟩
  · intro s hs he
    refine ⟨get_session_expired st sid now s hs he, ?_⟩
    exact get_session_absent _ sid now2 (findSession_erase_self st sid)
  · intro s hs he
    refine ⟨get_session_live st sid now s hs he, rfl, ?_⟩
    exact findSession_set_self st sid _ (by rw [hs]; rfl)

/-- Witness for C1: the session created at time 0 is expired at time 5000,
evicted there, and still not found at time 6000. -/
theorem C1_get_session_lookup_witness :
    get_session sampleStore "a" 5000 = (none, eraseSession sampleStore "a") ∧
    get_session (eraseSession sampleStore "a") "a" 6000 =
      (none, eraseSession sampleStore "a") :=
  (C1_get_session_lookup sampleStore "a" 5000 6000).2.1 sampleSession rfl (by decide)

/-- C4: when the connectivity probe fails, login reports an authentication
error carrying the underlying cause and leaves the store unchanged: no
session is created or partially registered. -/
theorem C4_login_probe_failure (st : Store)
    (host token http_path cause freshId : String) (now : Int) :
    login st host token http_path (ProbeResult.failure cause) freshId now =
      (LoginResult.authError cause, st) := rfl

/-- C5: after a successful probe, login constructs a Session with
created_at = last_used = now under the fresh identifier, inserts it into the
store, returns its id, and never fails; the inserted session is found under
that id afterwards. -/
theorem C5_login_creates_session (st : Store)
    (host token http_path freshId : String) (now : Int)
    (hfresh : findSession st freshId = none) :
    login st host token http_path ProbeResult.ok freshId now =
      (LoginResult.success freshId,
        st ++ [(freshId, mkSession freshId host token http_path now)]) ∧
    (mkSession freshId host token http_path now).created_at = now ∧
    (mkSession freshId host token http_path now).last_used = now ∧
    findSession (st ++ [(freshId, mkSession freshId host token http_path now)])
        freshId = some (mkSession freshId host token http_path now) := by
  have hcond : (findSession st freshId).isSome = false := by rw [hfresh]; rfl
  refine ⟨?_, rfl, rfl, findSession_append_fresh st freshId _ hfresh⟩
  show (LoginResult.success freshId,
      insertSession st freshId (mkSession freshId host token http_path now)) = _
  unfold insertSession
  rw [hcond]
  simp

/-- Witness for C5 on the empty store. -/
theorem C5_login_creates_session_witness :
    login [] "h" "t" "p" ProbeResult.ok "fresh" 0 =
      (LoginResult.success "fresh", [("fresh", mkSession "fresh" "h" "t" "p" 0)]) :=
  (C5_login_creates_session [] "h" "t" "p" "fresh" 0 rfl).1

/-- C6: session_status reports through the touching lookup: not-found exactly
when get_session returns not-found, and otherwise the identifier, host,
created_at and remaining = expiry - (now - last_used) of the touched session;
login immediately followed by session_status on the returned id reports the
full one-hour expiry as remaining. -/
theorem C6_session_status_report (st : Store) (sid : String) (now : Int) :
    (∀ st1 : Store, get_session st sid now = (none, st1) →
      session_status st sid now = (none, st1)) ∧
    (∀ (s1 : Session) (st1 : Store), get_session st sid now = (some s1, st1) →
      session_status st sid now =
        (some { id := s1.id, host := s1.host, created_at := s1.created_at,
                remaining := s1.expiry - (now - s1.last_used) }, st1)) ∧
    (∀ host token http_path freshId : String, findSession st freshId = none →
      (session_status (login st host token http_path ProbeResult.ok freshId now).2
          freshId now).1 =
        some { id := freshId, host := host, created_at := now,
               remaining := expirySeconds }) := by
  refine ⟨fun st1 h => session_status_absent st sid now st1 h,
    fun s1 st1 h => session_status_found st sid now s1 st1 h, ?_⟩
  intro host token http_path freshId hfresh
  have hst2 : (login st host token http_path ProbeResult.ok freshId now).2 =
      insertSession st freshId (mkSession freshId host token http_path now) := rfl
  rw [hst2]
  have hfind := findSession_insert_fresh st freshId
    (mkSession freshId host token http_path now) hfresh
  have hlive : (mkSession freshId host token http_path now).is_expired now = false := by
    simp [Session.is_expired, mkSession, expirySeconds]
  have hget := get_session_live _ freshId now _ hfind hlive
  rw [session_status_found _ freshId now _ _ hget]
  simp [mkSession, Session.update_last_used, expirySeconds]

/-- Witness for C6: login at time 0 on the empty store, then session_status
at time 0 reports the full hour remaining. -/
theorem C6_session_status_report_witness :
    (session_status (login [] "h" "t" "p" ProbeResult.ok "fresh" 0).2 "fresh" 0).1 =
      some { id := "fresh", host := "h", created_at := 0,
             remaining := expirySeconds } :=
  (C6_session_status_report [] "fresh" 0).2.2 "h" "t" "p" "fresh" rfl

/-- C7: logout removes the entry if present and reports whether a session
existed; it is total and idempotent: on an absent id it reports that nothing
was deleted, and a second logout after any logout reports false and changes
nothing. -/
theorem C7_logout_idempotent (st : Store) (sid : String) :
    ((findSession st sid).isSome = true →
      logout st sid = (true, eraseSession st sid) ∧
      findSession (eraseSession st sid) sid = none) ∧
    (findSession st sid = none → logout st sid = (false, st)) ∧
    logout (logout st sid).2 sid = (false, (logout st sid).2) := by
  refine ⟨?_, ?_, ?_⟩
  · intro h
    exact ⟨by simp [logout, h], findSession_erase_self st sid⟩
  · intro h
    simp [logout, h]
  · by_cases h : (findSession st sid).isSome = true
    · simp [logout, h, findSession_erase_self]
    · have hf : (findSession st sid).isSome = false := by
        revert h; cases (findSession st sid).isSome <;> simp
      simp [logout, hf]

/-- Witness for C7: deleting the sample session succeeds and a second logout
reports nothing to delete. -/
theorem C7_logout_idempotent_witness :
    logout sampleStore "a" = (true, eraseSession sampleStore "a") ∧
    logout (logout sampleStore "a").2 "a" = (false, (logout sampleStore "a").2) :=
  ⟨((C7_logout_idempotent sampleStore "a").1 rfl).1,
    (C7_logout_idempotent sampleStore "a").2.2⟩

/-- Counterexample for C2 as stated: the session id some "" is present yet
falsy under the code's `if session_id:` test, so with an absent store lookup
for "" and a complete environment the resolution succeeds with the
environment credentials instead of failing with InvalidSessionError. -/
theorem C2_counterexample :
    findSession [] "" = none ∧
    get_databricks_connection
        { host := some "h", token := some "t", http_path := some "p" }
        [] (some "") 0 =
      (Except.ok ("h", "t", "p"), []) := ⟨rfl, rfl⟩

/-- C2 amended: for a nonempty session id, if the touching lookup returns
absent (id unknown or expired) both resolvers fail with InvalidSessionError;
if it returns a live session whose stored credentials are nonempty, the SQL
resolver returns exactly (host, token, http_path) of that session and the
REST resolver exactly (host, token). -/
theorem C2_resolution_with_session (env : Env) (st : Store) (sid : String)
    (now : Int) (hsid : sid ≠ "") :
    (∀ st1 : Store, get_session st sid now = (none, st1) →
      get_databricks_connection env st (some sid) now =
        (Except.error ResolveError.invalidSession, st1) ∧
      databricks_api_request env st (some sid) now =
        (Except.error ResolveError.invalidSession, st1)) ∧
    (∀ (s1 : Session) (st1 : Store), get_session st sid now = (some s1, st1) →
      s1.host ≠ "" → s1.token ≠ "" → s1.http_path ≠ "" →
      get_databricks_connection env st (some sid) now =
        (Except.ok (s1.host, s1.token, s1.http_path), st1) ∧
      databricks_api_request env st (some sid) now =
        (Except.ok (s1.host, s1.token), st1)) := by
  have hb : (sid != "") = true := by simpa using hsid
  constructor
  · intro st1 h
    constructor
    · simp only [get_databricks_connection, hb, if_true, h]
    · simp only [databricks_api_request, hb, if_true, h]
  · intro s1 st1 h hh ht hp
    have h1 : (s1.host != "") = true := by simpa using hh
    have h2 : (s1.token != "") = true := by simpa using ht
    have h3 : (s1.http_path != "") = true := by simpa using hp
    constructor
    · simp only [get_databricks_connection, hb, if_true, h]
      simp [h1, h2, h3]
    · simp only [databricks_api_request, hb, if_true, h]
      simp [h1, h2]

/-- Witness for C2: resolving through the live sample session at time 100
returns its stored credentials. -/
theorem C2_resolution_with_session_witness :
    get_databricks_connection { host := none, token := none, http_path := none }
        sampleStore (some "a") 100 =
      (Except.ok ("h", "t", "p"),
        setSession sampleStore "a" (sampleSession.update_last_used 100)) :=
  ((C2_resolution_with_session
      { host := none, token := none, http_path := none }
      sampleStore "a" 100 (by decide)).2
    (sampleSession.update_last_used 100)
    (setSession sampleStore "a" (sampleSession.update_last_used 100))
    rfl (by decide) (by decide) (by decide)).1

/-- Counterexample for C3 as stated: with no session id and the http_path
configuration value missing, the REST-API resolution does not fail with
MissingCredentialsError; it succeeds with (host, token), because
databricks_api_request never reads or checks http_path. -/
theorem C3_counterexample :
    (Env.mk (some "h") (some "t") none).http_path = none ∧
    databricks_api_request (Env.mk (some "h") (some "t") none) [] none 0 =
      (Except.ok ("h", "t"), []) := ⟨rfl, rfl⟩

/-- C3 amended: with no session id, the SQL-connection resolver returns the
three configuration values verbatim when all are set and nonempty, and fails
with MissingCredentialsError when any is unset or empty; the REST-API
resolver consults only host and token, returning them when both are set and
nonempty and failing with MissingCredentialsError when either is unset or
empty, regardless of http_path. -/
theorem C3_resolution_env_fallback (env : Env) (st : Store) (now : Int) :
    (∀ hv tv pv : String,
      env = { host := some hv, token := some tv, http_path := some pv } →
      hv ≠ "" → tv ≠ "" → pv ≠ "" →
      get_databricks_connection env st none now = (Except.ok (hv, tv, pv), st)) ∧
    ((truthy env.host && truthy env.token && truthy env.http_path) = false →
      get_databricks_connection env st none now =
        (Except.error ResolveError.missingCredentials, st)) ∧
    (∀ hv tv : String, env.host = some hv → env.token = some tv →
      hv ≠ "" → tv ≠ "" →
      databricks_api_request env st none now = (Except.ok (hv, tv), st)) ∧
    ((truthy env.host && truthy env.token) = false →
      databricks_api_request env st none now =
        (Except.error ResolveError.missingCredentials, st)) := by
  refine ⟨?_, ?_, ?_, ?_⟩
  · intro hv tv pv henv hh ht hp
    subst henv
    unfold get_databricks_connection envConnFallback
    have h1 : truthy (some hv) = true := by simpa [truthy] using hh
    have h2 : truthy (some tv) = true := by simpa [truthy] using ht
    have h3 : truthy (some pv) = true := by simpa [truthy] using hp
    simp [h1, h2, h3]
  · intro h
    unfold get_databricks_connection envConnFallback
    simp [h]
  · intro hv tv hh ht hhv htv
    unfold databricks_api_request envApiFallback
    simp [hh, ht, truthy, hhv, htv]
  · intro h
    unfold databricks_api_request envApiFallback
    simp [h]

/-- Witness for C3: a complete nonempty configuration resolves verbatim. -/
theorem C3_resolution_env_fallback_witness :
    get_databricks_connection
        { host := some "h", token := some "t", http_path := some "p" } [] none 0 =
      (Except.ok ("h", "t", "p"), []) :=
  (C3_resolution_env_fallback
      { host := some "h", token := some "t", http_path := some "p" } [] 0).1
    "h" "t" "p" rfl (by decide) (by decide) (by decide)

/-- C8: two successive lookups of a live session at strictly increasing
times within the inactivity window both succeed, each sets last_used to the
lookup instant (so last_used strictly advances), and neither changes the
id, host, token or http_path fields. -/
theorem C8_touch_preserves_identity (st : Store) (sid : String) (s : Session)
    (now1 now2 : Int) (hfind : findSession st sid = some s)
    (hlive1 : s.is_expired now1 = false) (horder : now1 < now2)
    (hgap : now2 - now1 ≤ s.expiry) :
    ∃ (s1 s2 : Session) (st1 st2 : Store),
      get_session st sid now1 = (some s1, st1) ∧
      get_session st1 sid now2 = (some s2, st2) ∧
      s1.last_used = now1 ∧ s2.last_used = now2 ∧ s1.last_used < s2.last_used ∧
      s1.id = s.id ∧ s1.host = s.host ∧ s1.token = s.token ∧
      s1.http_path = s.http_path ∧
      s2.id = s.id ∧ s2.host = s.host ∧ s2.token = s.token ∧
      s2.http_path = s.http_path := by
  have hget1 := get_session_live st sid now1 s hfind hlive1
  have hfind1 : findSession (setSession st sid (s.update_last_used now1)) sid =
      some (s.update_last_used now1) :=
    findSession_set_self st sid _ (by rw [hfind]; rfl)
  have hlive2 : (s.update_last_used now1).is_expired now2 = false := by
    simp only [Session.is_expired, Session.update_last_used,
      decide_eq_false_iff_not, not_lt]
    omega
  have hget2 := get_session_live _ sid now2 _ hfind1 hlive2
  exact ⟨s.update_last_used now1, (s.update_last_used now1).update_last_used now2,
    _, _, hget1, hget2, rfl, rfl, horder, rfl, rfl, rfl, rfl, rfl, rfl, rfl, rfl⟩

/-- Witness for C8: lookups of the sample session at times 100 and 200. -/
theorem C8_touch_preserves_identity_witness :
    ∃ (s1 s2 : Session) (st1 st2 : Store),
      get_session sampleStore "a" 100 = (some s1, st1) ∧
      get_session st1 "a" 200 = (some s2, st2) ∧
      s1.last_used = 100 ∧ s2.last_used = 200 ∧ s1.last_used < s2.last_used ∧
      s1.id = sampleSession.id ∧ s1.host = sampleSession.host ∧
      s1.token = sampleSession.token ∧ s1.http_path = sampleSession.http_path ∧
      s2.id = sampleSession.id ∧ s2.host = sampleSession.host ∧
      s2.token = sampleSession.token ∧ s2.http_path = sampleSession.http_path :=
  C8_touch_preserves_identity sampleStore "a" sampleSession 100 200 rfl
    (by decide) (by decide) (by decide)

/-- C9: for any live session at any time, session_status reports remaining
equal to the full expiry, because the touching lookup sets last_used to now
before remaining = expiry - (now - last_used) is computed; the store keeps
the touched session, and any later lookup within the inactivity window
succeeds again, so polling keeps the session alive. -/
theorem C9_status_resets_expiry (st : Store) (sid : String) (now : Int)
    (s : Session) (hfind : findSession st sid = some s)
    (hlive : s.is_expired now = false) :
    session_status st sid now =
      (some { id := s.id, host := s.host, created_at := s.created_at,
              remaining := s.expiry },
        setSession st sid (s.update_last_used now)) ∧
    findSession (setSession st sid (s.update_last_used now)) sid =
      some (s.update_last_used now) ∧
    (∀ now2 : Int, now2 - now ≤ s.expiry →
      ∃ (s2 : Session) (st2 : Store),
        get_session (setSession st sid (s.update_last_used now)) sid now2 =
          (some s2, st2) ∧ s2.last_used = now2) := by
  have hget := get_session_live st sid now s hfind hlive
  have hfind1 : findSession (setSession st sid (s.update_last_used now)) sid =
      some (s.update_last_used now) :=
    findSession_set_self st sid _ (by rw [hfind]; rfl)
  refine ⟨?_, hfind1, ?_⟩
  · rw [session_status_found st sid now _ _ hget]
    simp [Session.update_last_used, sub_self, sub_zero]
  · intro now2 hgap
    have hlive2 : (s.update_last_used now).is_expired now2 = false := by
      simp only [Session.is_expired, Session.update_last_used,
        decide_eq_false_iff_not, not_lt]
      omega
    exact ⟨(s.update_last_used now).update_last_used now2, _,
      get_session_live _ sid now2 _ hfind1 hlive2, rfl⟩

/-- Witness for C9: session_status on the sample session at time 100 still
reports the full hour remaining and re-arms the timer. -/
theorem C9_status_resets_expiry_witness :
    session_status sampleStore "a" 100 =
      (some { id := "a", host := "h", created_at := 0,
              remaining := expirySeconds },
        setSession sampleStore "a" (sampleSession.update_last_used 100)) :=
  (C9_status_resets_expiry sampleStore "a" 100 sampleSession rfl (by decide)).1

end DbxSession
